import Mathlib

/-
Verification of the scoring and reporting pipeline of the
github_repo_classifier repository (src/visualize.py).

The script is a one-pass extract-transform-report pipeline over a table of
repository records.  We embed its data model and operations here:

* record fields are rationals (the script computes with Python floats; the
  derivations are exact field arithmetic except for the base-10 logarithm,
  which we model with Real.logb over the reals);
* the pandas DataFrame semantics needed by the error-handling claims
  (columns built from a list of records, absent keys padded with NaN,
  access to an absent column raising KeyError) are modelled explicitly
  with Option-valued raw records and a NaN-propagating value type;
* pandas nlargest is a stable descending sort by a key followed by take,
  modelled with List.insertionSort, which is stable;
* the URL handling of extract_repo_name models the path component of the
  Python urlparse result together with the strip and replace calls.
-/

namespace RepoClassifier

/-! ## URL handling: extract_repo_name (visualize.py lines 23-29) -/

/-- A character that may occur in a URL scheme (Python scheme_chars:
letters, digits, and the three marks plus, minus, dot). -/
def isSchemeChar (c : Char) : Bool :=
  c.isAlphanum || c == '+' || c == '-' || c == '.'

/-- Model of the scheme-splitting step of the Python urlsplit: when the text
before the first colon is a nonempty scheme starting with a letter, drop it
together with the colon; otherwise keep the input unchanged. -/
def dropScheme (cs : List Char) : List Char :=
  match cs.findIdx? (· == ':') with
  | some i =>
    if 0 < i && (cs.headD ' ').isAlpha && (cs.take i).all isSchemeChar then
      cs.drop (i + 1)
    else cs
  | none => cs

/-- Model of the path component returned by the Python urlparse: after the
scheme is stripped, a leading double slash introduces the network location,
which extends to the next slash, question mark or hash; a network location
with unbalanced square brackets raises ValueError (Invalid IPv6 URL); the
path is the remainder up to the first question mark or hash.  (The full
validation of a bracketed host and the scrubbing of tab and newline
characters in the Python library are not modelled.) -/
def urlsplitPath (url : String) : Except String String :=
  let cs := dropScheme url.toList
  if cs.take 2 = ['/', '/'] then
    let netloc := (cs.drop 2).takeWhile (fun c => !(c == '/' || c == '?' || c == '#'))
    let rest := (cs.drop 2).dropWhile (fun c => !(c == '/' || c == '?' || c == '#'))
    if (netloc.contains '[' && !netloc.contains ']') ||
        (netloc.contains ']' && !netloc.contains '[') then
      Except.error "Invalid IPv6 URL"
    else
      Except.ok (String.mk (rest.takeWhile (fun c => !(c == '?' || c == '#'))))
  else
    Except.ok (String.mk (cs.takeWhile (fun c => !(c == '?' || c == '#'))))

/-- The Python str.strip with the slash character: remove every leading and
trailing slash. -/
def stripSlashes (s : String) : String :=
  String.mk (((s.toList.dropWhile (· == '/')).reverse.dropWhile (· == '/')).reverse)

/-- One pass of the Python str.replace on character lists: scan left to
right, replacing non-overlapping occurrences of the pattern.  The fuel
argument (instantiated with the length of the list) makes the recursion
structural. -/
def replaceChars (pat repl : List Char) : ℕ → List Char → List Char
  | _, [] => []
  | 0, cs => cs
  | fuel + 1, c :: cs =>
    if pat.isPrefixOf (c :: cs) then
      repl ++ replaceChars pat repl fuel ((c :: cs).drop pat.length)
    else
      c :: replaceChars pat repl fuel cs

/-- The Python str.replace for a nonempty pattern (the only way the script
uses it): replace every non-overlapping occurrence, scanning left to right.
An empty pattern leaves the string unchanged. -/
def pyReplace (s pat repl : String) : String :=
  if pat.toList = [] then s
  else String.mk (replaceChars pat.toList repl.toList s.toList.length s.toList)

/-- extract_repo_name (visualize.py lines 23-29): take the path of the
parsed URL, strip slashes, delete the text github.com/ ; the bare except
returns the input unchanged when parsing raises. -/
def extract_repo_name (url : String) : String :=
  match urlsplitPath url with
  | Except.ok p => pyReplace (stripSlashes p) "github.com/" ""
  | Except.error _ => url

/-! ## The record model and the derived per-record fields
(visualize.py lines 31-49) -/

/-- A fully populated repository record, as a row of the DataFrame built
from classified_repos.json.  Numeric fields are rationals; the underrated
and overrated flags are numeric because the script compares them to 1. -/
structure Repo where
  github_url : String
  star_count : ℚ
  code_quality : ℚ
  innovativeness : ℚ
  usefulness : ℚ
  user_friendliness : ℚ
  underrated : ℚ
  overrated : ℚ
  project_domain : String
  motivation : String

/-- overall_quality (line 34): the four sub-scores summed and divided by 4. -/
def overall_quality (r : Repo) : ℚ :=
  (r.code_quality + r.innovativeness + r.usefulness + r.user_friendliness) / 4

/-- The logarithmic popularity term log10(star_count + 10) shared by the
two scores (lines 37-38). -/
noncomputable def log10pop (r : Repo) : ℝ :=
  Real.logb 10 ((r.star_count : ℝ) + 10)

/-- value_score (line 37): overall_quality / log10(star_count + 10). -/
noncomputable def value_score (r : Repo) : ℝ :=
  (overall_quality r : ℝ) / log10pop r

/-- overrated_score (line 38): log10(star_count + 10) / overall_quality. -/
noncomputable def overrated_score (r : Repo) : ℝ :=
  log10pop r / (overall_quality r : ℝ)

/-- get_color_category (lines 41-47): the underrated flag wins, then the
overrated flag, else Normal. -/
def get_color_category (r : Repo) : String :=
  if r.underrated = 1 then "Underrated"
  else if r.overrated = 1 then "Overrated"
  else "Normal"

/-- The arithmetic mean of a list of rationals. -/
def mean (xs : List ℚ) : ℚ := xs.sum / (xs.length : ℚ)

/-- The record of the worked example in the spec: star_count 100 and
sub-scores 8, 7, 9, 6. -/
def exampleRepo : Repo :=
  { github_url := "https://github.com/owner/name"
    star_count := 100
    code_quality := 8
    innovativeness := 7
    usefulness := 9
    user_friendliness := 6
    underrated := 0
    overrated := 0
    project_domain := "devtools"
    motivation := "solid work" }

/-- A record with both flags raised, to exercise the precedence of the
underrated flag. -/
def bothFlagsRepo : Repo :=
  { exampleRepo with underrated := 1, overrated := 1 }

/-! ## Top-N selection (pandas nlargest, lines 56, 61, 119, 140, 164)

pandas df.nlargest(n, column) returns the first n rows ordered by the
column in descending order; rows with equal keys keep their original
order (keep equals first).  We model it as a stable descending sort by
the key followed by take n; List.insertionSort is a stable sort. -/

/-- The descending comparison induced by a key. -/
def descRel {α β : Type} [LinearOrder β] (key : α → β) : α → α → Prop :=
  fun a b => key b ≤ key a

instance descRelDecidable {α β : Type} [LinearOrder β] (key : α → β) :
    DecidableRel (descRel key) :=
  fun a b => inferInstanceAs (Decidable (key b ≤ key a))

instance descRelTotal {α β : Type} [LinearOrder β] (key : α → β) :
    IsTotal α (descRel key) :=
  ⟨fun a b => le_total (key b) (key a)⟩

instance descRelTrans {α β : Type} [LinearOrder β] (key : α → β) :
    IsTrans α (descRel key) :=
  ⟨fun _ _ _ hab hbc => le_trans hbc hab⟩

/-- Stable descending sort by a key (the ordering pandas sort_values with
ascending False and a stable method produces). -/
def sortDescBy {α β : Type} [LinearOrder β] (key : α → β) (xs : List α) : List α :=
  List.insertionSort (descRel key) xs

/-- pandas df.nlargest(n, column): the first n rows of the stable
descending sort by the column. -/
def nlargest {α β : Type} [LinearOrder β] (n : ℕ) (key : α → β) (xs : List α) : List α :=
  (sortDescBy key xs).take n

/-! ## The ranked tabular export (spec only)

Modelled from the spec: the repository code under src/ contains no tabular
export of all derived fields (its printed tables are top-10 slices with a
subset of columns), so the export is modelled from the spec text: a table
with every derived field for every record, sorted descending by
value_score. -/

/-- One row of the tabular export: the five derived fields of a record. -/
structure ExportRow where
  repo_name : String
  overall_quality : ℚ
  value_score : ℝ
  overrated_score : ℝ
  category : String

/-- The derived fields of one record. -/
noncomputable def derivedRow (r : Repo) : ExportRow :=
  { repo_name := extract_repo_name r.github_url
    overall_quality := overall_quality r
    value_score := value_score r
    overrated_score := overrated_score r
    category := get_color_category r }

/-- Modelled from the spec: the ranked tabular export, all derived fields
for every record, sorted descending by value_score. -/
noncomputable def rankedExport (rs : List Repo) : List ExportRow :=
  (sortDescBy value_score rs).map derivedRow

/-! ## The percentile filter (spec only)

Modelled from the spec: the threshold-based percentile filter (records
above the 80th percentile of star count and below the 40th percentile of
quality, the potentially-overrated heuristic) appears in the spec but not
in the code under src/; it is modelled here from the spec text, with the
standard linear-interpolation quantile. -/

/-- A record as the percentile filter sees it: a star count and a quality
score. -/
structure StarQuality where
  star : ℚ
  quality : ℚ
  deriving DecidableEq

/-- Modelled from the spec: the linear-interpolation quantile (the numpy
default, named by the spec as the standard semantics): for a fraction q
and n sorted values, interpolate between the values at positions floor(h)
and floor(h)+1 where h = q(n-1). -/
def quantile (q : ℚ) (xs : List ℚ) : ℚ :=
  let s := List.insertionSort (· ≤ ·) xs
  let h := q * ((s.length : ℚ) - 1)
  let i := ⌊h⌋₊
  let lo := s.getD i 0
  let hi := s.getD (i + 1) lo
  lo + (h - (i : ℚ)) * (hi - lo)

/-- Modelled from the spec: keep exactly the records whose star count
exceeds the 80th percentile of star counts and whose quality is below the
40th percentile of quality. -/
def overratedFilter (rs : List StarQuality) : List StarQuality :=
  let p80 := quantile (4 / 5) (rs.map StarQuality.star)
  let p40 := quantile (2 / 5) (rs.map StarQuality.quality)
  rs.filter fun r => decide (p80 < r.star) && decide (r.quality < p40)

/-- The synthetic dataset of the spec: star counts 1, 5, 10, 50, 100, 200,
300, 500, 1000, 5000 with quality scores reversed-correlated (the higher
the star count, the lower the quality). -/
def specDataset : List StarQuality :=
  [⟨1, 10⟩, ⟨5, 9⟩, ⟨10, 8⟩, ⟨50, 7⟩, ⟨100, 6⟩,
   ⟨200, 5⟩, ⟨300, 4⟩, ⟨500, 3⟩, ⟨1000, 2⟩, ⟨5000, 1⟩]

/-! ## The pandas loading semantics needed by the error-handling claims
(lines 14-49 and the report emission) -/

/-- A cell value of a numeric DataFrame column: a number or NaN. -/
inductive PV where
  | num (q : ℚ)
  | nan
  deriving DecidableEq

/-- A raw input record as one dict of the JSON array: every key may be
absent. -/
structure RawRepo where
  github_url : Option String
  star_count : Option ℚ
  code_quality : Option ℚ
  innovativeness : Option ℚ
  usefulness : Option ℚ
  user_friendliness : Option ℚ
  underrated : Option ℚ
  overrated : Option ℚ
  project_domain : Option String
  motivation : Option String

/-- pandas pads a key absent from one record with NaN. -/
def toPV : Option ℚ → PV
  | some q => PV.num q
  | none => PV.nan

/-- The overall_quality arithmetic of line 34 on column cells: NaN in any
operand propagates to NaN (the pandas behaviour); otherwise the mean of
the four numbers. -/
def overallPV (a b c d : PV) : PV :=
  match a, b, c, d with
  | PV.num a, PV.num b, PV.num c, PV.num d => PV.num ((a + b + c + d) / 4)
  | _, _, _, _ => PV.nan

/-- get_color_category on column cells: a NaN flag compares unequal to 1,
so it falls through exactly like a flag that is not set. -/
def categoryPV (u o : PV) : String :=
  if u = PV.num 1 then "Underrated"
  else if o = PV.num 1 then "Overrated"
  else "Normal"

/-- A real-valued derived cell of the report: a value or NaN. -/
inductive RV where
  | val (x : ℝ)
  | nan

/-- The overall_quality cell of a record: line 34 applied to its four
sub-score cells. -/
def overallOf (r : RawRepo) : PV :=
  overallPV (toPV r.code_quality) (toPV r.innovativeness)
    (toPV r.usefulness) (toPV r.user_friendliness)

/-- value_score on cells (line 37): overall_quality / log10(star_count +
10), NaN whenever the quality cell or the star-count cell is NaN. -/
noncomputable def valueScorePV (q s : PV) : RV :=
  match q, s with
  | PV.num q, PV.num s => RV.val ((q : ℝ) / Real.logb 10 ((s : ℝ) + 10))
  | _, _ => RV.nan

/-- overrated_score on cells (line 38): log10(star_count + 10) /
overall_quality, NaN whenever either cell is NaN. -/
noncomputable def overratedScorePV (q s : PV) : RV :=
  match q, s with
  | PV.num q, PV.num s => RV.val (Real.logb 10 ((s : ℝ) + 10) / (q : ℝ))
  | _, _ => RV.nan

/-- One derived row of the report. -/
structure Row where
  repo_name : Option String
  star_count : PV
  overall_quality : PV
  value_score : RV
  overrated_score : RV
  category : String
  project_domain : Option String
  motivation : Option String

/-- The per-record derivation of lines 31-49: the repo name from the URL
(a NaN URL stays NaN through the bare except), the NaN-propagating mean of
the four sub-scores, the two NaN-propagating scores, and the
flag-precedence category. -/
noncomputable def deriveRow (r : RawRepo) : Row :=
  { repo_name := r.github_url.map extract_repo_name
    star_count := toPV r.star_count
    overall_quality := overallOf r
    value_score := valueScorePV (overallOf r) (toPV r.star_count)
    overrated_score := overratedScorePV (overallOf r) (toPV r.star_count)
    category := categoryPV (toPV r.underrated) (toPV r.overrated)
    project_domain := r.project_domain
    motivation := r.motivation }

/-- Access to a DataFrame column: the column exists when at least one
record carries the key; otherwise pandas raises KeyError.  (On an empty
record list no column exists.) -/
def requireColumn (data : List RawRepo) (present : RawRepo → Bool)
    (err : String) : Except String Unit :=
  if data.any present then Except.ok () else Except.error err

/-- The pipeline of visualize.py: touch each column in the order the
script does (github_url on line 31, the four sub-scores on line 34,
star_count on line 37, the two flags on line 49, project_domain and
motivation in the reports), then emit one derived row per record.  The
script validates nothing beyond the column accesses: a key absent from
every record raises KeyError, while a key absent from only some records
is padded with NaN and the report is still produced. -/
noncomputable def pipeline (data : List RawRepo) : Except String (List Row) := do
  let _ ← requireColumn data (fun r => r.github_url.isSome) "KeyError: github_url"
  let _ ← requireColumn data (fun r => r.code_quality.isSome) "KeyError: code_quality"
  let _ ← requireColumn data (fun r => r.innovativeness.isSome) "KeyError: innovativeness"
  let _ ← requireColumn data (fun r => r.usefulness.isSome) "KeyError: usefulness"
  let _ ← requireColumn data (fun r => r.user_friendliness.isSome) "KeyError: user_friendliness"
  let _ ← requireColumn data (fun r => r.star_count.isSome) "KeyError: star_count"
  let _ ← requireColumn data (fun r => r.underrated.isSome) "KeyError: underrated"
  let _ ← requireColumn data (fun r => r.overrated.isSome) "KeyError: overrated"
  let _ ← requireColumn data (fun r => r.project_domain.isSome) "KeyError: project_domain"
  let _ ← requireColumn data (fun r => r.motivation.isSome) "KeyError: motivation"
  pure (data.map deriveRow)

/-- C1: for every record with non-negative star count, multiplying
value_score back by log10(star_count + 10) recovers overall_quality; and
the worked example (star_count 100, sub-scores 8, 7, 9, 6) has
overall_quality 7.5 and value_score 7.5 / log10(110). -/
theorem value_score_roundTrip (r : Repo) (h : 0 ≤ r.star_count) :
    value_score r * Real.logb 10 ((r.star_count : ℝ) + 10) = (overall_quality r : ℝ) ∧
    overall_quality exampleRepo = 15 / 2 ∧
    value_score exampleRepo = (15 / 2 : ℝ) / Real.logb 10 110 := by
  have key : ∀ s : Repo, 0 ≤ s.star_count →
      value_score s * Real.logb 10 ((s.star_count : ℝ) + 10) = (overall_quality s : ℝ) := by
    intro s hs
    have h0 : (0 : ℝ) ≤ (s.star_count : ℝ) := by exact_mod_cast hs
    have hlog : 0 < Real.logb 10 ((s.star_count : ℝ) + 10) :=
      Real.logb_pos (by norm_num) (by linarith)
    unfold value_score log10pop
    exact div_mul_cancel₀ _ (ne_of_gt hlog)
  have hex : overall_quality exampleRepo = 15 / 2 := by
    norm_num [overall_quality, exampleRepo]
  refine ⟨key r h, hex, ?_⟩
  unfold value_score log10pop
  rw [hex]
  norm_num [exampleRepo]

/-- Witness for C1 at the worked example record. -/
theorem value_score_roundTrip_witness :
    (0 : ℚ) ≤ exampleRepo.star_count ∧
    value_score exampleRepo * Real.logb 10 ((exampleRepo.star_count : ℝ) + 10) =
      (overall_quality exampleRepo : ℝ) :=
  ⟨by norm_num [exampleRepo],
   (value_score_roundTrip exampleRepo (by norm_num [exampleRepo])).1⟩

/-- C2: overall_quality is the arithmetic mean of the four sub-scores. -/
theorem overall_quality_eq_mean (r : Repo) :
    overall_quality r =
      mean [r.code_quality, r.innovativeness, r.usefulness, r.user_friendliness] := by
  simp only [mean, overall_quality, List.sum_cons, List.sum_nil, List.length_cons,
    List.length_nil]
  norm_num
  ring

/-- C3: the category is Underrated whenever the underrated flag is set,
whatever the overrated flag holds; Overrated when only the overrated flag
is set; Normal when neither is set. -/
theorem category_flag_precedence (r : Repo) :
    (r.underrated = 1 → get_color_category r = "Underrated") ∧
    (r.underrated ≠ 1 → r.overrated = 1 → get_color_category r = "Overrated") ∧
    (r.underrated ≠ 1 → r.overrated ≠ 1 → get_color_category r = "Normal") := by
  refine ⟨fun h => ?_, fun h1 h2 => ?_, fun h1 h2 => ?_⟩
  · simp [get_color_category, h]
  · simp [get_color_category, h1, h2]
  · simp [get_color_category, h1, h2]

/-- Witness for C3: with both flags set, the underrated flag wins. -/
theorem category_flag_precedence_witness :
    get_color_category bothFlagsRepo = "Underrated" :=
  (category_flag_precedence bothFlagsRepo).1 rfl

/-- C4: for every collection and every metric, top-N selection returns
exactly N records (all of them, as a permutation, when fewer than N
exist), sorted descending by the metric; and the underlying sort is
stable, so records with equal keys keep their original input order. -/
theorem nlargest_spec {α β : Type} [LinearOrder β] (n : ℕ) (key : α → β) (xs : List α) :
    (nlargest n key xs).length = min n xs.length ∧
    (xs.length ≤ n → (nlargest n key xs).Perm xs) ∧
    List.Pairwise (fun a b => key b ≤ key a) (nlargest n key xs) ∧
    (∀ a b : α, key b ≤ key a → [a, b].Sublist xs →
      [a, b].Sublist (sortDescBy key xs)) := by
  have hsorted : List.Pairwise (descRel key) (sortDescBy key xs) :=
    List.sorted_insertionSort (descRel key) xs
  have hperm : (sortDescBy key xs).Perm xs := List.perm_insertionSort (descRel key) xs
  have hlen : (sortDescBy key xs).length = xs.length := by
    simp [sortDescBy, List.length_insertionSort]
  refine ⟨?_, ?_, ?_, ?_⟩
  · simp [nlargest, List.length_take, hlen]
  · intro hle
    rw [nlargest, List.take_of_length_le (by omega)]
    exact hperm
  · exact List.Pairwise.sublist (List.take_sublist n _) hsorted
  · intro a b hk hsub
    refine List.sublist_insertionSort ?_ hsub
    simp [List.pairwise_cons, descRel, hk]

/-- Witness for C4 on a collection with a tie: the returned length and the
preserved order of the tied records. -/
theorem nlargest_spec_witness :
    (nlargest 2 (fun x : ℕ => x) [5, 5, 3]).length = min 2 3 ∧
    [5, 5].Sublist (sortDescBy (fun x : ℕ => x) [5, 5, 3]) :=
  ⟨(nlargest_spec 2 (fun x : ℕ => x) [5, 5, 3]).1,
   (nlargest_spec 2 (fun x : ℕ => x) [5, 5, 3]).2.2.2 5 5 (le_refl 5) (by decide)⟩

/-- C5: on the synthetic 10-record dataset, the 80th percentile of star
counts is 600 and the 40th percentile of quality is 4.6 under
linear-interpolation quantile semantics, and the percentile filter returns
exactly the two records above the star threshold and below the quality
threshold. -/
theorem percentile_filter_spec :
    quantile (4 / 5) (specDataset.map StarQuality.star) = 600 ∧
    quantile (2 / 5) (specDataset.map StarQuality.quality) = 23 / 5 ∧
    overratedFilter specDataset = [⟨1000, 2⟩, ⟨5000, 1⟩] ∧
    overratedFilter specDataset =
      specDataset.filter (fun r => decide (600 < r.star) && decide (r.quality < 23 / 5)) := by
  have hstars : specDataset.map StarQuality.star =
      [1, 5, 10, 50, 100, 200, 300, 500, 1000, 5000] := rfl
  have hquals : specDataset.map StarQuality.quality =
      [10, 9, 8, 7, 6, 5, 4, 3, 2, 1] := rfl
  have hfloor80 : ⌊(36 : ℚ) / 5⌋₊ = 7 := by
    rw [Nat.floor_eq_iff (by norm_num)]
    norm_num
  have hfloor40 : ⌊(18 : ℚ) / 5⌋₊ = 3 := by
    rw [Nat.floor_eq_iff (by norm_num)]
    norm_num
  have h80 : quantile (4 / 5) (specDataset.map StarQuality.star) = 600 := by
    rw [hstars]
    norm_num [quantile, List.insertionSort, List.orderedInsert, List.getD,
      show (4 : ℚ) / 5 * (10 - 1) = 36 / 5 by norm_num, hfloor80]
  have h40 : quantile (2 / 5) (specDataset.map StarQuality.quality) = 23 / 5 := by
    rw [hquals]
    norm_num [quantile, List.insertionSort, List.orderedInsert, List.getD,
      show (2 : ℚ) / 5 * (10 - 1) = 18 / 5 by norm_num, hfloor40]
  refine ⟨h80, h40, ?_, ?_⟩
  · rw [overratedFilter, h80, h40]
    norm_num [specDataset, List.filter]
  · rw [overratedFilter, h80, h40]

/-- C6: the ranked tabular export carries the five derived fields of every
record (it is a permutation of the per-record derived rows) and is sorted
descending by value_score. -/
theorem ranked_export_spec (rs : List Repo) :
    (rankedExport rs).Perm (rs.map derivedRow) ∧
    List.Pairwise (fun a b : ExportRow => b.value_score ≤ a.value_score)
      (rankedExport rs) := by
  constructor
  · exact (List.perm_insertionSort (descRel value_score) rs).map derivedRow
  · have hs : List.Pairwise (descRel value_score) (sortDescBy value_score rs) :=
      List.sorted_insertionSort (descRel value_score) rs
    exact List.Pairwise.map derivedRow (fun a b h => h) hs

/-- C7: on an empty input collection the pipeline fails (the DataFrame has
no columns, so the first column access raises KeyError) and produces no
rows. -/
theorem empty_input_fails :
    pipeline [] = Except.error "KeyError: github_url" ∧
    (pipeline []).isOk = false := by
  constructor <;> rfl

/-- C9: for a record with non-negative star count and positive overall
quality, value_score and overrated_score are strictly positive, and
overall_quality lies within any common bounds of the four sub-scores. -/
theorem score_invariants (r : Repo) (lo hi : ℚ)
    (hstar : 0 ≤ r.star_count) (hq : 0 < overall_quality r)
    (h1 : lo ≤ r.code_quality) (h1h : r.code_quality ≤ hi)
    (h2 : lo ≤ r.innovativeness) (h2h : r.innovativeness ≤ hi)
    (h3 : lo ≤ r.usefulness) (h3h : r.usefulness ≤ hi)
    (h4 : lo ≤ r.user_friendliness) (h4h : r.user_friendliness ≤ hi) :
    0 < value_score r ∧ 0 < overrated_score r ∧
    lo ≤ overall_quality r ∧ overall_quality r ≤ hi := by
  have h0 : (0 : ℝ) ≤ (r.star_count : ℝ) := by exact_mod_cast hstar
  have hlog : 0 < log10pop r := Real.logb_pos (by norm_num) (by linarith)
  have hqR : (0 : ℝ) < (overall_quality r : ℝ) := by exact_mod_cast hq
  refine ⟨div_pos hqR hlog, div_pos hlog hqR, ?_, ?_⟩ <;>
    · rw [overall_quality] at *
      linarith

/-- Witness for C9 at the worked example record with bounds 0 and 10. -/
theorem score_invariants_witness :
    0 < value_score exampleRepo ∧ 0 < overrated_score exampleRepo ∧
    (0 : ℚ) ≤ overall_quality exampleRepo ∧ overall_quality exampleRepo ≤ 10 :=
  score_invariants exampleRepo 0 10
    (by norm_num [exampleRepo])
    (by norm_num [overall_quality, exampleRepo])
    (by norm_num [exampleRepo]) (by norm_num [exampleRepo])
    (by norm_num [exampleRepo]) (by norm_num [exampleRepo])
    (by norm_num [exampleRepo]) (by norm_num [exampleRepo])
    (by norm_num [exampleRepo]) (by norm_num [exampleRepo])

/-- C10: extract_repo_name is total (it is a function on strings) and
never propagates a parse failure: whenever the URL parse errors it returns
the input unchanged; on the GitHub URL https://github.com/owner/name it
returns owner/name; and on a malformed bracketed host, where the parse
does error, the input comes back unchanged. -/
theorem extract_repo_name_total :
    (∀ url e, urlsplitPath url = Except.error e → extract_repo_name url = url) ∧
    extract_repo_name "https://github.com/owner/name" = "owner/name" ∧
    (urlsplitPath "http://[::1").isOk = false ∧
    extract_repo_name "http://[::1" = "http://[::1" := by
    refine ⟨?_, by decide, by decide, by decide⟩
    intro url e herr
    rw [extract_repo_name, herr]

/-- Witness for C10 at a URL whose parse fails with the bracket error. -/
theorem extract_repo_name_total_witness :
    extract_repo_name "http://x[y/z" = "http://x[y/z" :=
  extract_repo_name_total.1 "http://x[y/z" "Invalid IPv6 URL" (by rfl)

end RepoClassifier
